import Mathlib

/-!
Verification of the rust-cgi library (src/lib.rs): a shallow embedding of its
request builder, bounded body reader, response serializer and dispatch
orchestrator, together with theorems settling the specification claims.

Modelling conventions:
* Environment (meta-variable) maps are association lists `List (String × String)`;
  the Rust `HashMap` has unique keys, and lookups go through `lookupEnv`.
* Byte sequences (`Vec<u8>`, stdin, stdout) are `List Nat` with entries < 256;
  `utf8Bytes` is the UTF-8 encoding used by Rust's `String::into_bytes`.
* Header maps (`http::HeaderMap`) are `List (String × String)` in insertion
  order; the `http` crate stores header names lowercased, so names are
  lowercased at insertion.  A name may occur several times (multimap).
* Fallible Rust operations (the `unimplemented!` panic on an unsupported
  `SERVER_PROTOCOL`, the `read_exact` failure on a short stream) are `Option`.
* Validation performed by the external `http` crate (method / URI / header
  name syntax) is out of scope, as the specification places that library
  outside the system boundary.
-/

namespace RustCgi

/-- Lookup in a CGI meta-variable map, mirroring `HashMap::get`. -/
def lookupEnv (env : List (String × String)) (k : String) : Option String :=
  (env.find? (fun kv => kv.1 = k)).map (fun kv => kv.2)

/-- ASCII lowercasing of a string, character by character: the lowercasing the
`http` crate applies to header names (header names are ASCII tokens). -/
def lowerAscii (s : String) : String :=
  String.mk (s.data.map Char.toLower)

/-- Whitespace trim at both ends, modelling Rust `str::trim` on the
whitespace characters that occur in header values. -/
def trimWs (s : String) : String :=
  String.mk
    (((s.data.dropWhile Char.isWhitespace).reverse.dropWhile
        Char.isWhitespace).reverse)

/-- Whether a meta-variable name starts with the literal `HTTP_`
(`key.starts_with("HTTP_")`). -/
def startsWithHTTP (k : String) : Bool :=
  k.data.take 5 == "HTTP_".data

/-- The code-point sequence of a string.  For the ASCII header names being
sorted this is the byte sequence Rust's `&str` ordering compares (UTF-8
preserves code-point order). -/
def strKey (s : String) : List Nat :=
  s.data.map Char.toNat

/-- The `&str` ordering used by `keys.sort_by_key(|h| h.as_str())`:
lexicographic on the byte/code-point sequence. -/
def leKey (a b : String) : Prop :=
  strKey a ≤ strKey b

instance : DecidableRel leKey :=
  fun a b => inferInstanceAs (Decidable (strKey a ≤ strKey b))

instance : IsTotal String leKey :=
  ⟨fun a b => le_total (strKey a) (strKey b)⟩

instance : IsTrans String leKey :=
  ⟨fun _ _ _ h1 h2 => le_trans h1 h2⟩

instance : IsAntisymm String leKey := by
  refine ⟨fun a b h1 h2 => ?_⟩
  have hk : strKey a = strKey b := le_antisymm h1 h2
  have hd : a.data = b.data :=
    List.map_injective_iff.mpr (fun x y hxy => Char.ext (UInt32.ext hxy)) hk
  cases a
  cases b
  exact congrArg String.mk hd

/-- Rust `usize` maximum on a 64-bit platform; `parse::<usize>()` fails above it. -/
def USIZE_MAX : Nat := 2 ^ 64 - 1

/-- Model of Rust `str::parse::<usize>()`: an optional leading plus sign, then
one or more ASCII digits, no other characters, value at most `USIZE_MAX`. -/
def parseUsize (s : String) : Option Nat :=
  let cs := match s.data with
    | '+' :: rest => rest
    | cs => cs
  if cs.isEmpty then none
  else if cs.all Char.isDigit then
    let v := cs.foldl (fun a c => a * 10 + (c.toNat - 48)) 0
    if v ≤ USIZE_MAX then some v else none
  else none

/-- Body length from `CONTENT_LENGTH`, as computed by `handle_with_io`:
`env_vars.get("CONTENT_LENGTH").and_then(parse).unwrap_or(0)`. -/
def contentLength (env : List (String × String)) : Nat :=
  ((lookupEnv env "CONTENT_LENGTH").bind parseUsize).getD 0

/-- Model of `Read::read_exact` into a buffer of `n` bytes: returns the `n`
bytes read and the untouched remainder of the stream, or fails when the
stream ends before `n` bytes are available.  At most `n` bytes are consumed. -/
def readExact (stdin : List Nat) (n : Nat) : Option (List Nat × List Nat) :=
  if n ≤ stdin.length then some (stdin.take n, stdin.drop n) else none

/-- The `http::version::Version` values used by the library. -/
inductive Version where
  | HTTP_09
  | HTTP_10
  | HTTP_11
  | HTTP_2
deriving DecidableEq, Repr

/-- The `http` crate's `Version::default()` is HTTP/1.1. -/
instance : Inhabited Version := ⟨Version.HTTP_11⟩

/-- The `SERVER_PROTOCOL` literal match of `parse_request`; `none` models the
`unimplemented!` panic on any other literal. -/
def parseVersion (v : String) : Option Version :=
  if v = "HTTP/0.9" then some Version.HTTP_09
  else if v = "HTTP/1.0" then some Version.HTTP_10
  else if v = "HTTP/1.1" then some Version.HTTP_11
  else if v = "HTTP/2.0" then some Version.HTTP_2
  else none

/-- Protocol version of the request being built: builder default (HTTP/1.1)
when `SERVER_PROTOCOL` is absent, else the literal match. -/
def versionFromEnv (env : List (String × String)) : Option Version :=
  match lookupEnv env "SERVER_PROTOCOL" with
  | none => some Version.HTTP_11
  | some v => parseVersion v

/-- The request data carried by `http::Request<Vec<u8>>` as used here.
Header names are stored lowercased (the `http::HeaderName` invariant). -/
structure Request where
  method : String
  uri : String
  version : Version
  headers : List (String × String)
  body : List Nat
deriving DecidableEq, Repr

/-- The response data carried by `http::Response<Vec<u8>>` as used here.
Header names are stored lowercased (the `http::HeaderName` invariant). -/
structure Response where
  status : Nat
  headers : List (String × String)
  body : List Nat
deriving DecidableEq, Repr

/-- Target URI string built by `parse_request`: `SCRIPT_NAME` (or the
executable path fallback `exe`), with a question mark and the literal
`QUERY_STRING` value appended whenever that key is present in the map. -/
def requestUri (exe : String) (env : List (String × String)) : String :=
  let uri := (lookupEnv env "SCRIPT_NAME").getD exe
  match lookupEnv env "QUERY_STRING" with
  | some q => uri ++ "?" ++ q
  | none => uri

/-- Header name derived from an `HTTP_*` meta-variable: skip the first five
characters, replace underscores with hyphens; the `http` crate then stores
the name lowercased. -/
def httpHeaderName (k : String) : String :=
  lowerAscii (String.mk ((k.data.drop 5).map (fun c => if c = '_' then '-' else c)))

/-- Headers contributed by the `HTTP_*` meta-variables: value trimmed of
leading and trailing whitespace, per `env_vars[key].as_str().trim()`. -/
def httpHeaders (env : List (String × String)) : List (String × String) :=
  (env.filter (fun kv => startsWithHTTP kv.1)).map
    (fun kv => (httpHeaderName kv.1, trimWs kv.2))

/-- The fixed meta-variable to `X-CGI-*` shadow header table, in the order of
the `add_header` calls in `parse_request`. -/
def cgiShadowHeaders : List (String × String) :=
  [("AUTH_TYPE", "X-CGI-Auth-Type"),
   ("CONTENT_LENGTH", "X-CGI-Content-Length"),
   ("CONTENT_TYPE", "X-CGI-Content-Type"),
   ("GATEWAY_INTERFACE", "X-CGI-Gateway-Interface"),
   ("PATH_INFO", "X-CGI-Path-Info"),
   ("PATH_TRANSLATED", "X-CGI-Path-Translated"),
   ("QUERY_STRING", "X-CGI-Query-String"),
   ("REMOTE_ADDR", "X-CGI-Remote-Addr"),
   ("REMOTE_HOST", "X-CGI-Remote-Host"),
   ("REMOTE_IDENT", "X-CGI-Remote-Ident"),
   ("REMOTE_USER", "X-CGI-Remote-User"),
   ("REQUEST_METHOD", "X-CGI-Request-Method"),
   ("SCRIPT_NAME", "X-CGI-Script-Name"),
   ("SERVER_PORT", "X-CGI-Server-Port"),
   ("SERVER_PROTOCOL", "X-CGI-Server-Protocol"),
   ("SERVER_SOFTWARE", "X-CGI-Server-Software")]

/-- Headers injected by the `add_header` calls: one per table entry whose
meta-variable is present, value untrimmed, name lowercased on storage. -/
def shadowHeaders (env : List (String × String)) : List (String × String) :=
  cgiShadowHeaders.filterMap
    (fun mt => (lookupEnv env mt.1).map (fun v => (lowerAscii mt.2, v)))

/-- Model of `parse_request`: method defaults to GET, target URI from
`SCRIPT_NAME`/`QUERY_STRING` (fallback `exe` models `exe_url()`), version from
`SERVER_PROTOCOL` (failing — the `unimplemented!` panic — on an unsupported
literal), `HTTP_*` headers then `X-CGI-*` shadow headers, body verbatim. -/
def parse_request (exe : String) (env : List (String × String))
    (stdin : List Nat) : Option Request :=
  match versionFromEnv env with
  | none => none
  | some ver =>
    some { method := (lookupEnv env "REQUEST_METHOD").getD "GET"
           uri := requestUri exe env
           version := ver
           headers := httpHeaders env ++ shadowHeaders env
           body := stdin }

/-- UTF-8 encoding of one character, as a list of byte values. -/
def utf8EncodeCharNat (c : Char) : List Nat :=
  let n := c.toNat
  if n < 0x80 then [n]
  else if n < 0x800 then [0xC0 + n / 64, 0x80 + n % 64]
  else if n < 0x10000 then
    [0xE0 + n / 4096, 0x80 + (n / 64) % 64, 0x80 + n % 64]
  else
    [0xF0 + n / 0x40000, 0x80 + (n / 4096) % 64, 0x80 + (n / 64) % 64,
     0x80 + n % 64]

/-- UTF-8 byte sequence of a string (Rust `String::into_bytes`). -/
def utf8Bytes (s : String) : List Nat :=
  s.data.flatMap utf8EncodeCharNat

/-- The `http::StatusCode::canonical_reason` table. -/
def canonicalReason (code : Nat) : Option String :=
  match code with
  | 100 => some "Continue"
  | 101 => some "Switching Protocols"
  | 102 => some "Processing"
  | 200 => some "OK"
  | 201 => some "Created"
  | 202 => some "Accepted"
  | 203 => some "Non-Authoritative Information"
  | 204 => some "No Content"
  | 205 => some "Reset Content"
  | 206 => some "Partial Content"
  | 207 => some "Multi-Status"
  | 208 => some "Already Reported"
  | 226 => some "IM Used"
  | 300 => some "Multiple Choices"
  | 301 => some "Moved Permanently"
  | 302 => some "Found"
  | 303 => some "See Other"
  | 304 => some "Not Modified"
  | 305 => some "Use Proxy"
  | 307 => some "Temporary Redirect"
  | 308 => some "Permanent Redirect"
  | 400 => some "Bad Request"
  | 401 => some "Unauthorized"
  | 402 => some "Payment Required"
  | 403 => some "Forbidden"
  | 404 => some "Not Found"
  | 405 => some "Method Not Allowed"
  | 406 => some "Not Acceptable"
  | 407 => some "Proxy Authentication Required"
  | 408 => some "Request Timeout"
  | 409 => some "Conflict"
  | 410 => some "Gone"
  | 411 => some "Length Required"
  | 412 => some "Precondition Failed"
  | 413 => some "Payload Too Large"
  | 414 => some "URI Too Long"
  | 415 => some "Unsupported Media Type"
  | 416 => some "Range Not Satisfiable"
  | 417 => some "Expectation Failed"
  | 418 => some "I\x27m a teapot"
  | 421 => some "Misdirected Request"
  | 422 => some "Unprocessable Entity"
  | 423 => some "Locked"
  | 424 => some "Failed Dependency"
  | 426 => some "Upgrade Required"
  | 428 => some "Precondition Required"
  | 429 => some "Too Many Requests"
  | 431 => some "Request Header Fields Too Large"
  | 451 => some "Unavailable For Legal Reasons"
  | 500 => some "Internal Server Error"
  | 501 => some "Not Implemented"
  | 502 => some "Bad Gateway"
  | 503 => some "Service Unavailable"
  | 504 => some "Gateway Timeout"
  | 505 => some "HTTP Version Not Supported"
  | 506 => some "Variant Also Negotiates"
  | 507 => some "Insufficient Storage"
  | 508 => some "Loop Detected"
  | 510 => some "Not Extended"
  | 511 => some "Network Authentication Required"
  | _ => none

/-- The status line written by `serialize_response`: `Status: <code>`, then a
space and the canonical reason phrase when the code has one, then a newline. -/
def statusLine (code : Nat) : String :=
  "Status: " ++ toString code ++
    (match canonicalReason code with
     | some r => " " ++ r
     | none => "") ++ "\n"

/-- Distinct header names in first-occurrence order, modelling
`HeaderMap::keys()` (each name yielded once even with several values). -/
def dedupKeys : List String → List String
  | [] => []
  | x :: xs => x :: (dedupKeys xs).filter (fun y => y ≠ x)

/-- The serializer's `keys.sort_by_key(|h| h.as_str())` ascending sort. -/
def sortStrings (l : List String) : List String :=
  l.insertionSort leKey

/-- `HeaderMap::get`: the first value associated with a header name. -/
def headerGet (hs : List (String × String)) (n : String) : Option String :=
  (hs.find? (fun kv => kv.1 = n)).map (fun kv => kv.2)

/-- The header lines emitted by `serialize_response`, without the trailing
newline of each: one line per distinct name, in ascending name order, with
the name's first value (`headers.get(key).unwrap()`). -/
def headerLines (r : Response) : List String :=
  (sortStrings (dedupKeys (r.headers.map Prod.fst))).map
    (fun k => k ++ ": " ++ (headerGet r.headers k).getD "")

/-- The `String` accumulated by `serialize_response` before `into_bytes`:
status line, header lines, blank line. -/
def serializeHeaderText (r : Response) : String :=
  statusLine r.status ++
    String.join ((headerLines r).map (fun l => l ++ "\n")) ++ "\n"

/-- Model of `serialize_response`: the header text as UTF-8 bytes, with the
body bytes appended raw. -/
def serialize_response (r : Response) : List Nat :=
  utf8Bytes (serializeHeaderText r) ++ r.body

/-- `empty_response`: the given status, no headers, empty body. -/
def empty_response (status : Nat) : Response :=
  { status := status, headers := [], body := [] }

/-- `html_response`: Content-Type then Content-Length headers, UTF-8 body. -/
def html_response (status : Nat) (body : String) : Response :=
  let b := utf8Bytes body
  { status := status
    headers := [("content-type", "text/html; charset=utf-8"),
                ("content-length", toString b.length)]
    body := b }

/-- `string_response`: Content-Length header only, UTF-8 body. -/
def string_response (status : Nat) (body : String) : Response :=
  let b := utf8Bytes body
  { status := status
    headers := [("content-length", toString b.length)]
    body := b }

/-- `text_response`: Content-Length then Content-Type headers, UTF-8 body. -/
def text_response (status : Nat) (body : String) : Response :=
  let b := utf8Bytes body
  { status := status
    headers := [("content-length", toString b.length),
                ("content-type", "text/plain; charset=utf-8")]
    body := b }

/-- `binary_response`: Content-Length always; Content-Type only when a
content type is supplied. -/
def binary_response (status : Nat) (contentType : Option String)
    (body : List Nat) : Response :=
  { status := status
    headers := [("content-length", toString body.length)] ++
      (match contentType with
       | some ct => [("content-type", ct)]
       | none => [])
    body := body }

/-- Model of `handle_with_io` over explicit streams: read exactly
`CONTENT_LENGTH` bytes from stdin, build the request, run the handler,
serialize; `none` models a panic (short read or unsupported protocol).
The result is the byte sequence written to stdout. -/
def handle_with_io (exe : String) (env : List (String × String))
    (func : Request → Response) (stdin : List Nat) : Option (List Nat) :=
  (readExact stdin (contentLength env)).bind fun p =>
    (parse_request exe env p.1).map fun req =>
      serialize_response (func req)

/-- Model of `try_handle_with_io`: same pipeline, with a handler returning
`Except`.  On failure the debug representation of the error (via the
caller's `Debug` instance, modelled by `debugFmt`) plus a newline goes to the
primary diagnostic stream when it is writable (`stderrOk`), otherwise to the
`eprintln!` fallback stream, and the serialized `empty_response 500` goes to
stdout.  Result: (stdout bytes, primary stderr text, fallback stderr text). -/
def try_handle_with_io {E : Type} (exe : String)
    (env : List (String × String)) (debugFmt : E → String)
    (func : Request → Except E Response) (stdin : List Nat)
    (stderrOk : Bool) : Option (List Nat × String × String) :=
  (readExact stdin (contentLength env)).bind fun p =>
    (parse_request exe env p.1).map fun req =>
      match func req with
      | Except.ok resp => (serialize_response resp, "", "")
      | Except.error e =>
        (serialize_response (empty_response 500),
         if stderrOk then debugFmt e ++ "\n" else "",
         if stderrOk then "" else debugFmt e ++ "\n")

/-! Helper lemmas about the serializer's header handling. -/

theorem mem_dedupKeys {a : String} : ∀ {l : List String}, a ∈ dedupKeys l ↔ a ∈ l
  | [] => by simp [dedupKeys]
  | x :: xs => by
    by_cases h : a = x
    · subst h; simp [dedupKeys]
    · simp [dedupKeys, List.mem_filter, h, mem_dedupKeys (l := xs)]

theorem nodup_dedupKeys : ∀ l : List String, (dedupKeys l).Nodup
  | [] => by simp [dedupKeys]
  | x :: xs => by
    simp only [dedupKeys, List.nodup_cons]
    refine ⟨?_, List.Nodup.filter _ (nodup_dedupKeys xs)⟩
    simp [List.mem_filter]

theorem dedupKeys_eq_self : ∀ {l : List String}, l.Nodup → dedupKeys l = l
  | [], _ => rfl
  | x :: xs, h => by
    obtain ⟨hx, hxs⟩ := List.nodup_cons.mp h
    simp only [dedupKeys, dedupKeys_eq_self hxs]
    congr 1
    exact List.filter_eq_self.mpr
      (fun a ha => decide_eq_true (fun e => hx (e ▸ ha)))

theorem mem_sortStrings {a : String} {l : List String} :
    a ∈ sortStrings l ↔ a ∈ l :=
  (List.perm_insertionSort _ l).mem_iff

theorem headerGet_cons_self (a : String × String) (hs : List (String × String)) :
    headerGet (a :: hs) a.1 = some a.2 := by
  unfold headerGet
  rw [List.find?_cons_of_pos _ (by simp)]
  rfl

theorem headerGet_cons_of_ne (a : String × String) (hs : List (String × String))
    (k : String) (h : a.1 ≠ k) :
    headerGet (a :: hs) k = headerGet hs k := by
  unfold headerGet
  rw [List.find?_cons_of_neg _ (by simp [h])]

theorem headerGet_eq_some_iff : ∀ {hs : List (String × String)},
    (hs.map Prod.fst).Nodup → ∀ {k v : String},
    (headerGet hs k = some v ↔ (k, v) ∈ hs)
  | [], _, k, v => by simp [headerGet]
  | a :: t, hn, k, v => by
    rw [List.map_cons, List.nodup_cons] at hn
    obtain ⟨ha, ht⟩ := hn
    by_cases hk : a.1 = k
    · subst hk
      rw [headerGet_cons_self]
      constructor
      · intro h
        have hv := Option.some.inj h
        subst hv
        exact List.mem_cons_self a t
      · intro h
        rcases List.mem_cons.mp h with h | h
        · rw [(congrArg Prod.snd h).symm]
        · exact absurd (List.mem_map.mpr ⟨(a.1, v), h, rfl⟩) ha
    · rw [headerGet_cons_of_ne _ _ _ hk, headerGet_eq_some_iff ht]
      constructor
      · exact fun h => List.mem_cons_of_mem _ h
      · intro h
        rcases List.mem_cons.mp h with h | h
        · exact absurd (congrArg Prod.fst h).symm hk
        · exact h

theorem headerGet_perm {l₁ l₂ : List (String × String)} (h : l₁.Perm l₂)
    (hn : (l₁.map Prod.fst).Nodup) (k : String) :
    headerGet l₁ k = headerGet l₂ k := by
  have hn₂ : (l₂.map Prod.fst).Nodup := ((h.map Prod.fst).nodup_iff).mp hn
  apply Option.ext
  intro v
  simp only [Option.mem_def]
  rw [headerGet_eq_some_iff hn, headerGet_eq_some_iff hn₂]
  exact h.mem_iff

theorem mem_keys_of_headerGet {hs : List (String × String)} {n v : String}
    (h : headerGet hs n = some v) : n ∈ hs.map Prod.fst := by
  obtain ⟨kv, hfind⟩ : ∃ kv, hs.find? (fun kv => kv.1 = n) = some kv := by
    unfold headerGet at h
    cases hf : hs.find? (fun kv => kv.1 = n) with
    | none => rw [hf] at h; simp at h
    | some kv => exact ⟨kv, rfl⟩
  have h1 := List.mem_of_find?_eq_some hfind
  have h2 := List.find?_some hfind
  simp only [decide_eq_true_eq] at h2
  exact List.mem_map.mpr ⟨kv, h1, h2⟩

theorem mem_headerLines_of_headerGet {r : Response} {n v : String}
    (h : headerGet r.headers n = some v) :
    (n ++ ": " ++ v) ∈ headerLines r := by
  unfold headerLines
  apply List.mem_map.mpr
  refine ⟨n, mem_sortStrings.mpr (mem_dedupKeys.mpr (mem_keys_of_headerGet h)), ?_⟩
  rw [h]
  rfl

/-- A request built from a successfully parsed environment, destructured. -/
theorem parse_request_eq_some {exe : String} {env : List (String × String)}
    {stdin : List Nat} {req : Request}
    (h : parse_request exe env stdin = some req) :
    req.method = (lookupEnv env "REQUEST_METHOD").getD "GET" ∧
    req.uri = requestUri exe env ∧
    req.headers = httpHeaders env ++ shadowHeaders env ∧
    req.body = stdin := by
  unfold parse_request at h
  cases hv : versionFromEnv env with
  | none => rw [hv] at h; exact absurd h (by simp)
  | some ver =>
    rw [hv] at h
    have := Option.some.inj h
    subst this
    exact ⟨rfl, rfl, rfl, rfl⟩

/-! Claim theorems. -/

/-- Claim C1, counterexample: with `SCRIPT_NAME = "/s"` and `QUERY_STRING`
present but empty, the built target is `"/s?"`, not `SCRIPT_NAME` verbatim:
the code appends the question mark whenever the key is present, empty or not. -/
theorem C1_counterexample :
    (parse_request "" [("SCRIPT_NAME", "/s"), ("QUERY_STRING", "")] []).map
      Request.uri = some "/s?" ∧ "/s?" ≠ "/s" :=
  ⟨rfl, by decide⟩

/-- Claim C1, amended: when `QUERY_STRING` is absent the target equals
`SCRIPT_NAME` verbatim; when it is present (empty or not) the target is
`SCRIPT_NAME` followed by a question mark and the literal, non-URL-decoded
`QUERY_STRING` value. -/
theorem C1_amended (exe : String) (env : List (String × String))
    (stdin : List Nat) (s : String)
    (hs : lookupEnv env "SCRIPT_NAME" = some s)
    (req : Request) (hreq : parse_request exe env stdin = some req) :
    (lookupEnv env "QUERY_STRING" = none → req.uri = s) ∧
    (∀ q, lookupEnv env "QUERY_STRING" = some q → req.uri = s ++ "?" ++ q) := by
  obtain ⟨-, huri, -, -⟩ := parse_request_eq_some hreq
  constructor
  · intro hq
    rw [huri]
    unfold requestUri
    rw [hs, hq]
    rfl
  · intro q hq
    rw [huri]
    unfold requestUri
    rw [hs, hq]
    rfl

/-- Witness for C1: the amended claim applied to the spec's own example map. -/
theorem C1_amended_witness :
    (Request.mk "GET" "/my/path/script?foo=bar&baz=bop" Version.HTTP_11
      [("x-cgi-query-string", "foo=bar&baz=bop"),
       ("x-cgi-script-name", "/my/path/script")] []).uri
      = "/my/path/script" ++ "?" ++ "foo=bar&baz=bop" :=
  (C1_amended ""
      [("SCRIPT_NAME", "/my/path/script"), ("QUERY_STRING", "foo=bar&baz=bop")]
      [] "/my/path/script" rfl
      (Request.mk "GET" "/my/path/script?foo=bar&baz=bop" Version.HTTP_11
        [("x-cgi-query-string", "foo=bar&baz=bop"),
         ("x-cgi-script-name", "/my/path/script")] [])
      (by decide)).2 "foo=bar&baz=bop" rfl

/-- Claim C2, counterexample: `empty_response` sets no headers at all, so its
serialization carries no Content-Length line (matching the library's own
test, which expects exactly the status line and a blank line). -/
theorem C2_counterexample :
    (empty_response 500).headers = [] ∧
    headerLines (empty_response 500) = [] ∧
    headerGet (empty_response 500).headers "content-length" = none ∧
    serialize_response (empty_response 500)
      = utf8Bytes "Status: 500 Internal Server Error\n\n" :=
  ⟨rfl, rfl, rfl, rfl⟩

/-- Claim C2, amended: `text_response`, `string_response`, `html_response` and
`binary_response` all carry a Content-Length header equal to the body's byte
length (and it appears as a serialized header line); `binary_response` with no
content type still carries Content-Length but no Content-Type; but
`empty_response` carries no headers at all, hence no Content-Length. -/
theorem C2_amended (status : Nat) (s : String) (b : List Nat) (ct : String) :
    headerGet (text_response status s).headers "content-length"
      = some (toString (utf8Bytes s).length) ∧
    headerGet (string_response status s).headers "content-length"
      = some (toString (utf8Bytes s).length) ∧
    headerGet (html_response status s).headers "content-length"
      = some (toString (utf8Bytes s).length) ∧
    headerGet (binary_response status (some ct) b).headers "content-length"
      = some (toString b.length) ∧
    headerGet (binary_response status (some ct) b).headers "content-type"
      = some ct ∧
    headerGet (binary_response status none b).headers "content-length"
      = some (toString b.length) ∧
    headerGet (binary_response status none b).headers "content-type" = none ∧
    ("content-length" ++ ": " ++ toString (utf8Bytes s).length)
      ∈ headerLines (text_response status s) ∧
    ("content-length" ++ ": " ++ toString b.length)
      ∈ headerLines (binary_response status none b) ∧
    (empty_response status).headers = [] := by
  refine ⟨rfl, rfl, rfl, rfl, rfl, rfl, rfl, ?_, ?_, rfl⟩
  · exact mem_headerLines_of_headerGet (r := text_response status s)
      (n := "content-length") (v := toString (utf8Bytes s).length) rfl
  · exact mem_headerLines_of_headerGet (r := binary_response status none b)
      (n := "content-length") (v := toString b.length) rfl

/-- Claim C5: the body length is `CONTENT_LENGTH` parsed as a non-negative
integer, degrading to zero when absent, empty or unparsable; the reader reads
exactly that many bytes, fails (and the pipeline with it) when fewer are
available, never consumes more, and with length zero performs no read. -/
theorem C5_bounded_read (exe : String) (env : List (String × String))
    (stdin : List Nat) (func : Request → Response) :
    (lookupEnv env "CONTENT_LENGTH" = none → contentLength env = 0) ∧
    (∀ s, lookupEnv env "CONTENT_LENGTH" = some s → parseUsize s = none →
      contentLength env = 0) ∧
    (∀ s n, lookupEnv env "CONTENT_LENGTH" = some s → parseUsize s = some n →
      contentLength env = n) ∧
    parseUsize "" = none ∧
    (stdin.length < contentLength env →
      readExact stdin (contentLength env) = none ∧
      handle_with_io exe env func stdin = none) ∧
    (contentLength env ≤ stdin.length →
      readExact stdin (contentLength env)
        = some (stdin.take (contentLength env), stdin.drop (contentLength env))) ∧
    readExact stdin 0 = some ([], stdin) := by
  refine ⟨?_, ?_, ?_, rfl, ?_, ?_, ?_⟩
  · intro h; simp [contentLength, h]
  · intro s h hp; simp [contentLength, h, hp]
  · intro s n h hp; simp [contentLength, h, hp]
  · intro h
    have hr : readExact stdin (contentLength env) = none := by
      unfold readExact
      rw [if_neg (by omega)]
    exact ⟨hr, by simp [handle_with_io, hr]⟩
  · intro h
    unfold readExact
    rw [if_pos h]
  · simp [readExact]

/-- Witness for C5: `CONTENT_LENGTH = "2"` against a four-byte stream reads
exactly the first two bytes and leaves the rest untouched. -/
theorem C5_bounded_read_witness :
    readExact [7, 8, 9, 6] (contentLength [("CONTENT_LENGTH", "2")])
      = some ([7, 8], [9, 6]) := by
  have h := (C5_bounded_read "" [("CONTENT_LENGTH", "2")] [7, 8, 9, 6]
      (fun _ => empty_response 200)).2.2.2.2.2.1 (by decide)
  rw [h]
  decide

/-- Claim C6: in fallible mode a handler failure writes the debug rendering of
the failure value plus a newline to the diagnostic stream (falling back to the
alternate path when that stream is unwritable, without failing the pipeline),
and stdout receives exactly the serialization of `empty_response 500`, namely
`Status: 500 Internal Server Error` and a blank line. -/
theorem C6_error_path {E : Type} (exe : String) (env : List (String × String))
    (debugFmt : E → String) (func : Request → Except E Response)
    (stdin : List Nat) (stderrOk : Bool) (req : Request) (e : E)
    (hlen : contentLength env ≤ stdin.length)
    (hreq : parse_request exe env (stdin.take (contentLength env)) = some req)
    (herr : func req = Except.error e) :
    try_handle_with_io exe env debugFmt func stdin stderrOk
      = some (utf8Bytes "Status: 500 Internal Server Error\n\n",
              if stderrOk then debugFmt e ++ "\n" else "",
              if stderrOk then "" else debugFmt e ++ "\n") := by
  have hread : readExact stdin (contentLength env)
      = some (stdin.take (contentLength env), stdin.drop (contentLength env)) := by
    unfold readExact
    rw [if_pos hlen]
  unfold try_handle_with_io
  rw [hread, Option.some_bind]
  simp only []
  rw [hreq, Option.map_some']
  rw [herr]
  rfl

/-- Witness for C6: the library's own failing-handler test case, with the
string failure value rendered in Rust Debug style. -/
theorem C6_error_path_witness :
    try_handle_with_io "" [] (fun s : String => "\"" ++ s ++ "\"")
      (fun _ => Except.error "Not good") [] true
      = some (utf8Bytes "Status: 500 Internal Server Error\n\n",
              "\"Not good\"\n", "") := by
  have h := C6_error_path "" [] (fun s : String => "\"" ++ s ++ "\"")
    (fun _ => Except.error "Not good") [] true
    (Request.mk "GET" "" Version.HTTP_11 [] []) "Not good"
    (by decide) rfl rfl
  rw [h]
  decide

/-- Claim C7: a present `SERVER_PROTOCOL` maps the four supported literals to
the corresponding enumerated version, any other literal makes request
building fail, and an absent variable leaves the builder's default HTTP/1.1. -/
theorem C7_protocol (exe : String) (env : List (String × String))
    (stdin : List Nat) :
    (lookupEnv env "SERVER_PROTOCOL" = none →
      (parse_request exe env stdin).map Request.version = some Version.HTTP_11) ∧
    (∀ v req, lookupEnv env "SERVER_PROTOCOL" = some v →
      parse_request exe env stdin = some req →
      ((v = "HTTP/0.9" → req.version = Version.HTTP_09) ∧
       (v = "HTTP/1.0" → req.version = Version.HTTP_10) ∧
       (v = "HTTP/1.1" → req.version = Version.HTTP_11) ∧
       (v = "HTTP/2.0" → req.version = Version.HTTP_2))) ∧
    (∀ v, lookupEnv env "SERVER_PROTOCOL" = some v →
      v ≠ "HTTP/0.9" → v ≠ "HTTP/1.0" → v ≠ "HTTP/1.1" → v ≠ "HTTP/2.0" →
      parse_request exe env stdin = none) := by
  refine ⟨?_, ?_, ?_⟩
  · intro h
    simp [parse_request, versionFromEnv, h]
  · intro v req hv hreq
    have hver : ∀ ver, versionFromEnv env = some ver → req.version = ver := by
      intro ver h
      unfold parse_request at hreq
      rw [h] at hreq
      have := Option.some.inj hreq
      subst this
      rfl
    refine ⟨?_, ?_, ?_, ?_⟩ <;> intro h <;> subst h <;>
      exact hver _ (by simp [versionFromEnv, hv, parseVersion])
  · intro v hv h09 h10 h11 h2
    unfold parse_request versionFromEnv
    rw [hv]
    simp [parseVersion, h09, h10, h11, h2]

/-- Witness for C7: `SERVER_PROTOCOL = "HTTP/1.0"` yields version HTTP/1.0 in
the built request. -/
theorem C7_protocol_witness :
    (Request.mk "GET" "" Version.HTTP_10
      [("x-cgi-server-protocol", "HTTP/1.0")] []).version = Version.HTTP_10 :=
  ((C7_protocol "" [("SERVER_PROTOCOL", "HTTP/1.0")] []).2.1 "HTTP/1.0"
    (Request.mk "GET" "" Version.HTTP_10
      [("x-cgi-server-protocol", "HTTP/1.0")] []) rfl (by decide)).2.1 rfl

/-- Claim C10, counterexample: a map with no `REQUEST_METHOD` but an
unsupported `SERVER_PROTOCOL` makes request building fail, so the claim that
building never fails when the method is absent is too strong. -/
theorem C10_counterexample :
    lookupEnv [("SERVER_PROTOCOL", "HTTP/9.9")] "REQUEST_METHOD" = none ∧
    parse_request "" [("SERVER_PROTOCOL", "HTTP/9.9")] [] = none :=
  ⟨rfl, rfl⟩

/-- Claim C10, amended: when `REQUEST_METHOD` is absent any successfully built
request has method GET (and building does succeed when, in particular,
`SERVER_PROTOCOL` is also absent); when `REQUEST_METHOD` is present the built
request's method is its literal value. -/
theorem C10_amended (exe : String) (env : List (String × String))
    (stdin : List Nat) :
    (∀ req, lookupEnv env "REQUEST_METHOD" = none →
      parse_request exe env stdin = some req → req.method = "GET") ∧
    (∀ m req, lookupEnv env "REQUEST_METHOD" = some m →
      parse_request exe env stdin = some req → req.method = m) ∧
    (lookupEnv env "REQUEST_METHOD" = none →
      lookupEnv env "SERVER_PROTOCOL" = none →
      (parse_request exe env stdin).map Request.method = some "GET") := by
  refine ⟨?_, ?_, ?_⟩
  · intro req hm hreq
    obtain ⟨h, -, -, -⟩ := parse_request_eq_some hreq
    rw [h, hm]
    rfl
  · intro m req hm hreq
    obtain ⟨h, -, -, -⟩ := parse_request_eq_some hreq
    rw [h, hm]
    rfl
  · intro hm hp
    simp [parse_request, versionFromEnv, hp, hm]

/-- Witness for C10: the empty environment (the library's `test_empty` case)
builds a request with method GET. -/
theorem C10_amended_witness :
    (parse_request "" [] []).map Request.method = some "GET" :=
  (C10_amended "" [] []).2.2 rfl rfl

/-- Claim C3, counterexample: a header name carrying two values serializes to
a single line bearing the first value; the second pair produces no line. -/
theorem C3_counterexample :
    ("x-two", "2") ∈ (Response.mk 200 [("x-two", "1"), ("x-two", "2")] []).headers ∧
    ("x-two" ++ ": " ++ "2")
      ∉ headerLines (Response.mk 200 [("x-two", "1"), ("x-two", "2")] []) ∧
    headerLines (Response.mk 200 [("x-two", "1"), ("x-two", "2")] [])
      = ["x-two: 1"] :=
  ⟨by decide, by decide, by decide⟩

/-- Claim C3, amended: the serializer emits exactly one line per distinct
header name — bearing that name's first value — rather than one line per
name–value pair; additional values of a multi-valued name are dropped. -/
theorem C3_amended (r : Response) (n v : String)
    (h : headerGet r.headers n = some v) :
    (n ++ ": " ++ v) ∈ headerLines r ∧
    (sortStrings (dedupKeys (r.headers.map Prod.fst))).count n = 1 := by
  refine ⟨mem_headerLines_of_headerGet h, ?_⟩
  have hnd : (sortStrings (dedupKeys (r.headers.map Prod.fst))).Nodup :=
    ((List.perm_insertionSort leKey _).nodup_iff).mpr
      (nodup_dedupKeys _)
  exact List.count_eq_one_of_mem hnd
    (mem_sortStrings.mpr (mem_dedupKeys.mpr (mem_keys_of_headerGet h)))

/-- Witness for C3: the multi-valued response emits the first value's line
and exactly one line for the name. -/
theorem C3_amended_witness :
    ("x-two" ++ ": " ++ "1")
      ∈ headerLines (Response.mk 200 [("x-two", "1"), ("x-two", "2")] []) ∧
    (sortStrings (dedupKeys
        ((Response.mk 200 [("x-two", "1"), ("x-two", "2")] []).headers.map
          Prod.fst))).count "x-two" = 1 :=
  C3_amended (Response.mk 200 [("x-two", "1"), ("x-two", "2")] []) "x-two" "1" rfl

/-- Claim C8: every `HTTP_`-prefixed meta-variable contributes a header whose
name is the variable name with the prefix stripped and underscores replaced
by hyphens (stored lowercased, hence matched case-insensitively) and whose
value is the variable's value trimmed of surrounding whitespace; in
particular `HTTP_USER_AGENT` becomes the `user-agent` header. -/
theorem C8_http_headers (exe : String) (env : List (String × String))
    (stdin : List Nat) (k v : String) (req : Request)
    (hmem : (k, v) ∈ env) (hpre : startsWithHTTP k = true)
    (hreq : parse_request exe env stdin = some req) :
    (httpHeaderName k, trimWs v) ∈ req.headers ∧
    httpHeaderName "HTTP_USER_AGENT" = "user-agent" ∧
    trimWs " MyBrowser/1.0 " = "MyBrowser/1.0" := by
  obtain ⟨-, -, hh, -⟩ := parse_request_eq_some hreq
  refine ⟨?_, by decide, by decide⟩
  rw [hh]
  apply List.mem_append_left
  unfold httpHeaders
  exact List.mem_map.mpr ⟨(k, v), List.mem_filter.mpr ⟨hmem, hpre⟩, rfl⟩

/-- Witness for C8: the spec's `HTTP_USER_AGENT = "MyBrowser/1.0"` example. -/
theorem C8_http_headers_witness :
    (httpHeaderName "HTTP_USER_AGENT", trimWs "MyBrowser/1.0")
      ∈ (Request.mk "GET" "" Version.HTTP_11
          [("user-agent", "MyBrowser/1.0")] []).headers ∧
    httpHeaderName "HTTP_USER_AGENT" = "user-agent" ∧
    trimWs " MyBrowser/1.0 " = "MyBrowser/1.0" :=
  C8_http_headers "" [("HTTP_USER_AGENT", "MyBrowser/1.0")] []
    "HTTP_USER_AGENT" "MyBrowser/1.0"
    (Request.mk "GET" "" Version.HTTP_11 [("user-agent", "MyBrowser/1.0")] [])
    (by decide) (by decide) (by decide)

/-- Claim C9, counterexample: the meta-variable `HTTP_X_CGI_AUTH_TYPE` forges
the `x-cgi-auth-type` shadow header, so the request can carry the shadow
header of `AUTH_TYPE` although `AUTH_TYPE` is absent from the map: the
claimed equivalence fails in the only-if direction. -/
theorem C9_counterexample :
    ("AUTH_TYPE", "X-CGI-Auth-Type") ∈ cgiShadowHeaders ∧
    lookupEnv [("HTTP_X_CGI_AUTH_TYPE", "foo")] "AUTH_TYPE" = none ∧
    (parse_request "" [("HTTP_X_CGI_AUTH_TYPE", "foo")] []).map Request.headers
      = some [("x-cgi-auth-type", "foo")] :=
  ⟨by decide, by decide, by decide⟩

/-- Claim C9, amended: for each of the sixteen table entries, a present
meta-variable always yields the shadow header with its value; conversely the
shadow header is absent when the meta-variable is absent, provided no
`HTTP_*` variable's transformed name collides with the shadow header name. -/
theorem C9_amended (exe : String) (env : List (String × String))
    (stdin : List Nat) (mv th : String) (req : Request)
    (htab : (mv, th) ∈ cgiShadowHeaders)
    (hreq : parse_request exe env stdin = some req) :
    (∀ v, lookupEnv env mv = some v → (lowerAscii th, v) ∈ req.headers) ∧
    (lookupEnv env mv = none →
      (∀ kv, kv ∈ env → startsWithHTTP kv.1 = true →
        httpHeaderName kv.1 ≠ lowerAscii th) →
      ∀ w, (lowerAscii th, w) ∉ req.headers) := by
  obtain ⟨-, -, hh, -⟩ := parse_request_eq_some hreq
  constructor
  · intro v hv
    rw [hh]
    apply List.mem_append_right
    unfold shadowHeaders
    apply List.mem_filterMap.mpr
    exact ⟨(mv, th), htab, by rw [show ((mv, th)).1 = mv from rfl, hv]; rfl⟩
  · intro hnone hno w hw
    rw [hh] at hw
    rcases List.mem_append.mp hw with hw | hw
    · unfold httpHeaders at hw
      obtain ⟨kv, hkv, heq⟩ := List.mem_map.mp hw
      have hf := List.mem_filter.mp hkv
      exact hno kv hf.1 hf.2 (congrArg Prod.fst heq)
    · unfold shadowHeaders at hw
      obtain ⟨mt, hmt, heq⟩ := List.mem_filterMap.mp hw
      cases hl : lookupEnv env mt.1 with
      | none => rw [hl] at heq; simp at heq
      | some u =>
        rw [hl] at heq
        have hpair := Option.some.inj heq
        have hname : lowerAscii mt.2 = lowerAscii th := congrArg Prod.fst hpair
        have hnd : (cgiShadowHeaders.map (fun p => lowerAscii p.2)).Nodup := by
          decide
        have hinj : mt = (mv, th) :=
          List.inj_on_of_nodup_map hnd hmt htab (by simpa using hname)
        rw [hinj, show ((mv, th)).1 = mv from rfl, hnone] at hl
        exact Option.noConfusion hl

/-- Witness for C9: `AUTH_TYPE = "basic"` yields the `x-cgi-auth-type`
shadow header. -/
theorem C9_amended_witness :
    (lowerAscii "X-CGI-Auth-Type", "basic")
      ∈ (Request.mk "GET" "" Version.HTTP_11
          [("x-cgi-auth-type", "basic")] []).headers :=
  (C9_amended "" [("AUTH_TYPE", "basic")] [] "AUTH_TYPE" "X-CGI-Auth-Type"
    (Request.mk "GET" "" Version.HTTP_11 [("x-cgi-auth-type", "basic")] [])
    (by decide) (by decide)).1 "basic" rfl

/-- One emitted line per key equals one line per pair when keys are distinct:
`headers.get(key)` then recovers exactly each pair's value. -/
theorem map_headerGet_eq : ∀ {hs : List (String × String)},
    (hs.map Prod.fst).Nodup →
    (hs.map Prod.fst).map (fun k => k ++ ": " ++ (headerGet hs k).getD "")
      = hs.map (fun kv => kv.1 ++ ": " ++ kv.2)
  | [], _ => rfl
  | a :: t, hn => by
    rw [List.map_cons, List.nodup_cons] at hn
    obtain ⟨ha, ht⟩ := hn
    simp only [List.map_cons]
    congr 1
    · rw [headerGet_cons_self]
      rfl
    · rw [← map_headerGet_eq ht]
      apply List.map_congr_left
      intro k hk
      rw [headerGet_cons_of_ne _ _ _ (fun e => ha (e ▸ hk))]

/-- Claim C4: serialization of a response with distinct header names is the
status line (reason phrase included exactly when the code has one), one
`name: value` line per header in ascending name order independent of
insertion order, a blank line, then the raw body; the spec's
`Status: 200 OK` / `Hello World` example comes out byte-exact. -/
theorem C4_serialization :
    (∀ r₁ r₂ : Response, r₁.status = r₂.status → r₁.body = r₂.body →
      (r₁.headers.map Prod.fst).Nodup → r₁.headers.Perm r₂.headers →
      serialize_response r₁ = serialize_response r₂) ∧
    (∀ r : Response, (r.headers.map Prod.fst).Nodup →
      List.Sorted leKey (r.headers.map Prod.fst) →
      serialize_response r
        = utf8Bytes (statusLine r.status ++
            String.join (r.headers.map (fun kv => kv.1 ++ ": " ++ kv.2 ++ "\n"))
            ++ "\n") ++ r.body) ∧
    serialize_response (Response.mk 200 [] (utf8Bytes "Hello World"))
      = utf8Bytes "Status: 200 OK\n\nHello World" ∧
    canonicalReason 200 = some "OK" ∧
    canonicalReason 299 = none ∧
    statusLine 299 = "Status: 299\n" := by
  refine ⟨?_, ?_, by decide, rfl, rfl, by decide⟩
  · intro r₁ r₂ hst hb hn hperm
    have hn₂ : (r₂.headers.map Prod.fst).Nodup :=
      ((hperm.map Prod.fst).nodup_iff).mp hn
    unfold serialize_response serializeHeaderText
    rw [hst, hb]
    suffices h : headerLines r₁ = headerLines r₂ by rw [h]
    unfold headerLines
    have hkeys : sortStrings (dedupKeys (r₁.headers.map Prod.fst))
        = sortStrings (dedupKeys (r₂.headers.map Prod.fst)) := by
      rw [dedupKeys_eq_self hn, dedupKeys_eq_self hn₂]
      unfold sortStrings
      exact List.eq_of_perm_of_sorted
        ((List.perm_insertionSort leKey _).trans
          ((hperm.map Prod.fst).trans (List.perm_insertionSort leKey _).symm))
        (List.sorted_insertionSort leKey _) (List.sorted_insertionSort leKey _)
    rw [hkeys]
    apply List.map_congr_left
    intro k hk
    rw [headerGet_perm hperm hn k]
  · intro r hn hsort
    unfold serialize_response serializeHeaderText
    suffices h : headerLines r = r.headers.map (fun kv => kv.1 ++ ": " ++ kv.2) by
      rw [h, List.map_map]
      rfl
    unfold headerLines sortStrings
    rw [dedupKeys_eq_self hn, List.Sorted.insertionSort_eq hsort]
    exact map_headerGet_eq hn

/-- Witness for C4: insertion order does not affect the serialized bytes. -/
theorem C4_serialization_witness :
    serialize_response (Response.mk 200 [("b", "2"), ("a", "1")] [])
      = serialize_response (Response.mk 200 [("a", "1"), ("b", "2")] []) :=
  C4_serialization.1 (Response.mk 200 [("b", "2"), ("a", "1")] [])
    (Response.mk 200 [("a", "1"), ("b", "2")] []) rfl rfl
    (by decide) (by decide)

end RustCgi
